import Mathlib

/-!
ResuMate document-export core, modelled in Lean.

The definitions below are a shallow embedding of the resume-export logic of
the repository: the DOCX emitter `handleDownloadDocx` and the PDF emitter
`handleDownloadPdf` of `src/app/page.tsx`, the zod output schemas of
`src/ai/flows/generate-tailored-resume.ts` and
`src/ai/flows/career-chatbot.ts`, and the chat page handler
`handleSendMessage` of `src/app/chatbot/page.tsx`.

Modelling conventions:

* JavaScript string primitives (`split`, `startsWith`, `substring`,
  `toUpperCase`, `trim`, the anchored `replace(/^[*-]\s*/, "")`,
  `Array.prototype.filter(Boolean)`, `Array.prototype.join`) are
  re-implemented on `List Char` so that every definition evaluates by kernel
  reduction.  Uppercasing is modelled on ASCII letters.
* Lengths in the PDF emitter are measured in centi-points (1 pt = 100 units)
  so that the jsPDF a4 page height of 841.89 pt is the integer 84189 and all
  cursor arithmetic is exact integer arithmetic; `pt n` converts n points.
* jsPDF `doc.splitTextToSize text width` is an external text-measurement
  routine; the emitters only use the length of the array it returns, so it is
  modelled by an oracle `wrap : String → ℤ → ℕ` giving the number of wrapped
  lines for a text at a wrap width.
-/

/-! ### JavaScript string primitives -/

/-- Whitespace test of the JavaScript regex class `\s` (ASCII part). -/
def jsIsWs (c : Char) : Bool :=
  c = ' ' || c = '\t' || c = '\n' || c = '\r' || c = '\x0b' || c = '\x0c'

/-- ASCII uppercasing of one character, as `String.prototype.toUpperCase`
acts on ASCII letters. -/
def upChar (c : Char) : Char :=
  if 'a' ≤ c && c ≤ 'z' then Char.ofNat (c.toNat - 32) else c

/-- JavaScript `s.toUpperCase()` (ASCII model). -/
def jsUpper (s : String) : String :=
  ⟨s.data.map upChar⟩

/-- JavaScript `s.startsWith(pre)`. -/
def jsStartsWith (s pre : String) : Bool :=
  pre.data.isPrefixOf s.data

/-- JavaScript `s.substring(n)`. -/
def jsSubstringFrom (s : String) (n : ℕ) : String :=
  ⟨s.data.drop n⟩

/-- Splitting a character list at every occurrence of a separator character;
`splitCharsOn c l` never returns the empty list. -/
def splitCharsOn (c : Char) : List Char → List (List Char)
  | [] => [[]]
  | a :: rest =>
    if a = c then [] :: splitCharsOn c rest
    else
      match splitCharsOn c rest with
      | [] => [[a]]
      | g :: gs => (a :: g) :: gs

/-- JavaScript `s.split(sep)` for a one-character separator; in the emitters
the separator is always the newline. -/
def jsSplitNl (s : String) : List String :=
  (splitCharsOn '\n' s.data).map fun l => ⟨l⟩

/-- JavaScript `Array.prototype.join(sep)` on an array of strings. -/
def jsJoin (sep : String) : List String → String
  | [] => ""
  | [x] => x
  | x :: y :: rest => x ++ sep ++ jsJoin sep (y :: rest)

/-- Removal of leading JavaScript whitespace. -/
def dropWhileWs (s : String) : String :=
  ⟨s.data.dropWhile jsIsWs⟩

/-- JavaScript `line.replace(/^[*-]\s*/, "")`: when the line begins with a
hyphen or an asterisk, that one character and every whitespace character
following it are removed; otherwise the line is unchanged. -/
def jsStripLeadBullet (l : String) : String :=
  if jsStartsWith l "-" || jsStartsWith l "*" then dropWhileWs (jsSubstringFrom l 1)
  else l

/-- The bullet test used by both emitters on section-body lines:
`line.startsWith("- ") || line.startsWith("* ")`. -/
def isBulletLine (l : String) : Bool :=
  jsStartsWith l "- " || jsStartsWith l "* "

/-- JavaScript `s.trim()` (ASCII model). -/
def jsTrim (s : String) : String :=
  ⟨((s.data.dropWhile jsIsWs).reverse.dropWhile jsIsWs).reverse⟩

/-- JavaScript truthiness of an optional string: `undefined` and the empty
string are falsy. -/
def truthy : Option String → Bool
  | some s => !(s == "")
  | none => false

/-- JavaScript `[a, b, ...].filter(Boolean)` on optional strings: keeps the
present, non-empty entries in order. -/
def filterBoolean (l : List (Option String)) : List String :=
  l.filterMap fun o =>
    match o with
    | some s => if s == "" then none else some s
    | none => none

/-! ### Data model

The structured resume consumed by the two emitters of `src/app/page.tsx`
(fields destructured at the top of `handleDownloadDocx` and
`handleDownloadPdf`).  Fields read through optional chaining or guarded by
truthiness tests in the source are `Option`-valued here. -/

structure WorkItem where
  jobTitle : String
  company : String
  location : String
  dates : String
  description : List String
deriving DecidableEq, Repr

structure EducationItem where
  degree : String
  school : String
  location : Option String
  dates : Option String
  details : Option (List String)
deriving DecidableEq, Repr

structure ResumeSection where
  title : String
  body : String
deriving DecidableEq, Repr

structure SummaryPart where
  title : String
  body : String
deriving DecidableEq, Repr

structure Resume where
  name : String
  candidateTitle : Option String
  email : String
  phone : String
  linkedin : Option String
  address : Option String
  summary : Option SummaryPart
  workExperience : List WorkItem
  education : List EducationItem
  otherSections : List ResumeSection
deriving DecidableEq, Repr

/-- The contact line built identically by both emitters:
`[phone, email, linkedin, address].filter(Boolean).join(" / ")`. -/
def contactInfo (r : Resume) : String :=
  jsJoin " / " (filterBoolean [some r.phone, some r.email, r.linkedin, r.address])

/-- The education detail line built identically by both emitters:
`[edu.dates, edu.school, edu.location].filter(Boolean).join(" / ")`. -/
def eduDetails (edu : EducationItem) : String :=
  jsJoin " / " (filterBoolean [edu.dates, some edu.school, edu.location])

/-! ### DOCX emitter content

`handleDownloadDocx` pushes a list `docChildren` of `Paragraph` objects and
packs them into the document.  A paragraph is modelled by its text content
and its bullet flag; fonts, sizes, colors, spacing and border options are
visual styling and carry no text content. -/

structure Para where
  text : String
  bullet : Bool
deriving DecidableEq, Repr

/-- The `createSection` helper of `handleDownloadDocx`: an uppercased title
paragraph followed by an empty spacer paragraph. -/
def createSection (title : String) : List Para :=
  [⟨jsUpper title, false⟩, ⟨"", false⟩]

/-- One section-body line of an `otherSections` entry in the DOCX emitter:
text `line.replace(/^[*-]\s*/, "")`, bullet flag
`line.startsWith("- ") || line.startsWith("* ")`. -/
def docxSectionLine (line : String) : Para :=
  ⟨jsStripLeadBullet line, isBulletLine line⟩

/-- DOCX header paragraphs: uppercased name, uppercased candidate title when
truthy, contact line. -/
def docxHeader (r : Resume) : List Para :=
  [⟨jsUpper r.name, false⟩]
    ++ (match r.candidateTitle with
        | some t => if t == "" then [] else [⟨jsUpper t, false⟩]
        | none => [])
    ++ [⟨contactInfo r, false⟩]

/-- DOCX summary paragraphs, emitted only when `summary?.body` is truthy. -/
def docxSummary (r : Resume) : List Para :=
  match r.summary with
  | some s => if s.body == "" then [] else createSection s.title ++ [⟨s.body, false⟩]
  | none => []

/-- DOCX paragraphs of one work-experience entry. -/
def docxJob (job : WorkItem) : List Para :=
  [⟨job.jobTitle ++ " / " ++ job.company, false⟩,
   ⟨job.dates ++ " / " ++ job.location, false⟩]
    ++ job.description.map fun desc => ⟨desc, true⟩

/-- DOCX work-experience paragraphs, emitted only when `workExperience` is
non-empty. -/
def docxWork (r : Resume) : List Para :=
  if r.workExperience.isEmpty then []
  else createSection "Work Experience" ++ r.workExperience.flatMap docxJob

/-- DOCX paragraphs of one education entry. -/
def docxEduItem (edu : EducationItem) : List Para :=
  [⟨edu.degree, false⟩, ⟨eduDetails edu, false⟩]
    ++ (match edu.details with
        | some ds => ds.map fun d => ⟨d, true⟩
        | none => [])

/-- DOCX education paragraphs, emitted only when `education` is non-empty. -/
def docxEdu (r : Resume) : List Para :=
  if r.education.isEmpty then []
  else createSection "Education" ++ r.education.flatMap docxEduItem

/-- DOCX paragraphs of one `otherSections` entry: its title block followed by
one paragraph per body line (every line, blank lines included). -/
def docxOtherSection (sec : ResumeSection) : List Para :=
  createSection sec.title ++ (jsSplitNl sec.body).map docxSectionLine

/-- The full `docChildren` paragraph list built by `handleDownloadDocx`. -/
def docxChildren (r : Resume) : List Para :=
  docxHeader r ++ docxSummary r ++ docxWork r ++ docxEdu r
    ++ r.otherSections.flatMap docxOtherSection

/-! ### PDF emitter content

The text arguments of the `doc.text` calls of `handleDownloadPdf`, in call
order, with the bullet flag recording which calls render a hanging-indent
bullet.  Bullet calls receive the glyph-prefixed string built by the source
(`"• " + text`). -/

/-- One section-body line of an `otherSections` entry in the PDF emitter. -/
def pdfSectionLine (line : String) : Para :=
  if isBulletLine line then ⟨"• " ++ jsSubstringFrom line 2, true⟩
  else ⟨line, false⟩

/-- The glyph-prefixed bullet string of the PDF emitter. -/
def pdfBullet (d : String) : Para :=
  ⟨"• " ++ d, true⟩

/-- PDF header text draws: uppercased name, uppercased candidate title when
truthy, contact line. -/
def pdfHeaderTexts (r : Resume) : List Para :=
  [⟨jsUpper r.name, false⟩]
    ++ (match r.candidateTitle with
        | some t => if t == "" then [] else [⟨jsUpper t, false⟩]
        | none => [])
    ++ [⟨contactInfo r, false⟩]

/-- PDF summary text draws (title through `printSectionTitle`, then the
wrapped body). -/
def pdfSummaryTexts (r : Resume) : List Para :=
  match r.summary with
  | some s => if s.body == "" then [] else [⟨jsUpper s.title, false⟩, ⟨s.body, false⟩]
  | none => []

/-- PDF text draws of one work-experience entry. -/
def pdfJobTexts (job : WorkItem) : List Para :=
  [⟨job.jobTitle ++ " / " ++ job.company, false⟩,
   ⟨job.dates ++ " / " ++ job.location, false⟩]
    ++ job.description.map pdfBullet

/-- PDF work-experience text draws. -/
def pdfWorkTexts (r : Resume) : List Para :=
  if r.workExperience.isEmpty then []
  else ⟨jsUpper "Work Experience", false⟩ :: r.workExperience.flatMap pdfJobTexts

/-- PDF text draws of one education entry. -/
def pdfEduItemTexts (edu : EducationItem) : List Para :=
  [⟨edu.degree, false⟩, ⟨eduDetails edu, false⟩]
    ++ (match edu.details with
        | some ds => ds.map pdfBullet
        | none => [])

/-- PDF education text draws. -/
def pdfEduTexts (r : Resume) : List Para :=
  if r.education.isEmpty then []
  else ⟨jsUpper "Education", false⟩ :: r.education.flatMap pdfEduItemTexts

/-- PDF text draws of one `otherSections` entry. -/
def pdfOtherSectionTexts (sec : ResumeSection) : List Para :=
  ⟨jsUpper sec.title, false⟩ :: (jsSplitNl sec.body).map pdfSectionLine

/-- All text draws of `handleDownloadPdf`, in call order. -/
def pdfDrawTexts (r : Resume) : List Para :=
  pdfHeaderTexts r ++ pdfSummaryTexts r ++ pdfWorkTexts r ++ pdfEduTexts r
    ++ r.otherSections.flatMap pdfOtherSectionTexts

/-! ### Content extraction

The format-independent content of an emitted document: the non-empty text of
each block with its bullet classification, in emission order.  For the PDF
emitter the bullet glyph prefix `"• "` added by the source before drawing is
removed again, since the glyph is the visual rendering of the bullet
classification, not text content. -/

/-- Content of a DOCX paragraph. -/
def paraKey (p : Para) : Bool × String :=
  (p.bullet, p.text)

/-- Content of a PDF text draw (bullet draws carry the glyph prefix). -/
def pdfStripGlyph (p : Para) : Bool × String :=
  (p.bullet, if p.bullet then jsSubstringFrom p.text 2 else p.text)

/-- Content sequence of the DOCX emitter. -/
def docxContent (r : Resume) : List (Bool × String) :=
  ((docxChildren r).map paraKey).filter fun x => !(x.2 == "")

/-- Content sequence of the PDF emitter. -/
def pdfContent (r : Resume) : List (Bool × String) :=
  ((pdfDrawTexts r).map pdfStripGlyph).filter fun x => !(x.2 == "")

/-! ### PDF emitter geometry

A faithful state-passing model of `handleDownloadPdf`: a current page index,
the running vertical cursor `yPos`, and the list of text draws performed so
far.  Each `doc.text` call is recorded as a `DrawEvent` holding the page and
cursor position at which it is issued and the number of wrapped lines it
draws.  All lengths are in centi-points. -/

/-- Length of `n` points in centi-points. -/
def pt (n : ℤ) : ℤ :=
  100 * n

/-- The `margin = 40` constant of `handleDownloadPdf`. -/
def margin : ℤ :=
  pt 40

/-- jsPDF a4 page height: `doc.internal.pageSize.getHeight()` is 841.89 pt. -/
def pageHeight : ℤ :=
  84189

/-- jsPDF a4 page width: `doc.internal.pageSize.getWidth()` is 595.28 pt. -/
def pageWidth : ℤ :=
  59528

/-- The `sectionSpacing = 20` constant of `handleDownloadPdf`. -/
def sectionSpacing : ℤ :=
  pt 20

/-- The `lineSpacing = 1.2` constant of `handleDownloadPdf`, scaled by 100 as
all lengths are. -/
def lineSpacing : ℤ :=
  120

/-- Vertical advance of `n` wrapped lines: the source expression
`lines.length * 10 * lineSpacing` (10 pt body font). -/
def wrapAdvance (n : ℕ) : ℤ :=
  (n : ℤ) * 10 * lineSpacing

/-- The wrapping oracle modelling `doc.splitTextToSize text width`: number of
wrapped lines of a text at a wrap width. -/
abbrev Wrap : Type :=
  String → ℤ → ℕ

/-- One recorded `doc.text` call. -/
structure DrawEvent where
  page : ℕ
  y : ℤ
  lines : ℕ
  text : String
  bullet : Bool
deriving DecidableEq, Repr

/-- The jsPDF document state: current page, running cursor, performed draws. -/
structure PdfDoc where
  page : ℕ
  yPos : ℤ
  events : List DrawEvent
deriving DecidableEq, Repr

/-- The `checkPageBreak` helper of `handleDownloadPdf`: when the cursor plus
the needed space would pass the printable page height, add a page and reset
the cursor to the top margin. -/
def checkPageBreak (spaceNeeded : ℤ) (d : PdfDoc) : PdfDoc :=
  if d.yPos + spaceNeeded > pageHeight - margin then
    { page := d.page + 1, yPos := margin, events := d.events }
  else d

/-- A `doc.text` call drawing `n` lines of `t` at the current position. -/
def drawText (t : String) (b : Bool) (n : ℕ) (d : PdfDoc) : PdfDoc :=
  { d with events := d.events ++ [⟨d.page, d.yPos, n, t, b⟩] }

/-- A `yPos += q` statement. -/
def addY (q : ℤ) (d : PdfDoc) : PdfDoc :=
  { d with yPos := d.yPos + q }

/-- The initial state: first page, `yPos = 40`. -/
def pdfInit : PdfDoc :=
  ⟨0, pt 40, []⟩

/-- The `printSectionTitle` helper of `handleDownloadPdf`. -/
def printSectionTitle (title : String) (d : PdfDoc) : PdfDoc :=
  let d := checkPageBreak (pt 30) d
  let d := addY (sectionSpacing / 2) d
  let d := drawText (jsUpper title) false 1 d
  let d := addY (pt 8) d
  addY (pt 15) d

/-- The header part of `handleDownloadPdf`: name, optional candidate title,
contact line, drawn without page-break checks near the top of page one. -/
def pdfHeader (r : Resume) (d : PdfDoc) : PdfDoc :=
  let d := drawText (jsUpper r.name) false 1 d
  let d := addY (pt 24) d
  let d :=
    match r.candidateTitle with
    | some t => if t == "" then d else addY (pt 20) (drawText (jsUpper t) false 1 d)
    | none => d
  let d := drawText (contactInfo r) false 1 d
  addY sectionSpacing d

/-- The summary part of `handleDownloadPdf`. -/
def pdfSummary (wrap : Wrap) (r : Resume) (d : PdfDoc) : PdfDoc :=
  match r.summary with
  | some s =>
    if s.body == "" then d
    else
      let d := printSectionTitle s.title d
      let n := wrap s.body (pageWidth - margin * 2)
      let d := checkPageBreak (wrapAdvance n) d
      let d := drawText s.body false n d
      addY (wrapAdvance n) d
  | none => d

/-- One description/detail bullet draw of `handleDownloadPdf`: glyph-prefixed
text wrapped at the indented width, with its own page-break check. -/
def pdfDescBullet (wrap : Wrap) (desc : String) (d : PdfDoc) : PdfDoc :=
  let bulletPoint := "• " ++ desc
  let n := wrap bulletPoint (pageWidth - margin * 2 - pt 15)
  let d := checkPageBreak (wrapAdvance n) d
  let d := drawText bulletPoint true n d
  addY (wrapAdvance n + pt 2) d

/-- One work-experience entry of `handleDownloadPdf`. -/
def pdfJob (wrap : Wrap) (d : PdfDoc) (job : WorkItem) : PdfDoc :=
  let d := checkPageBreak (pt 60) d
  let d := drawText (job.jobTitle ++ " / " ++ job.company) false 1 d
  let d := addY (pt 12) d
  let d := drawText (job.dates ++ " / " ++ job.location) false 1 d
  let d := addY (pt 15) d
  let d := job.description.foldl (fun d desc => pdfDescBullet wrap desc d) d
  addY (pt 10) d

/-- The work-experience part of `handleDownloadPdf`. -/
def pdfWork (wrap : Wrap) (r : Resume) (d : PdfDoc) : PdfDoc :=
  if r.workExperience.isEmpty then d
  else r.workExperience.foldl (pdfJob wrap) (printSectionTitle "Work Experience" d)

/-- One education entry of `handleDownloadPdf`. -/
def pdfEduItem (wrap : Wrap) (d : PdfDoc) (edu : EducationItem) : PdfDoc :=
  let d := checkPageBreak (pt 40) d
  let d := drawText edu.degree false 1 d
  let d := addY (pt 12) d
  let d := drawText (eduDetails edu) false 1 d
  let d := addY (pt 15) d
  let d :=
    match edu.details with
    | some ds => ds.foldl (fun d detail => pdfDescBullet wrap detail d) d
    | none => d
  addY (pt 10) d

/-- The education part of `handleDownloadPdf`. -/
def pdfEdu (wrap : Wrap) (r : Resume) (d : PdfDoc) : PdfDoc :=
  if r.education.isEmpty then d
  else r.education.foldl (pdfEduItem wrap) (printSectionTitle "Education" d)

/-- One section-body line of an `otherSections` entry of `handleDownloadPdf`. -/
def pdfOtherLine (wrap : Wrap) (d : PdfDoc) (line : String) : PdfDoc :=
  let isB := isBulletLine line
  let t := if isB then "• " ++ jsSubstringFrom line 2 else line
  let indent : ℤ := if isB then pt 5 else 0
  let n := wrap t (pageWidth - margin * 2 - indent)
  let d := checkPageBreak (wrapAdvance n) d
  let d := drawText t isB n d
  addY (wrapAdvance n + pt 2) d

/-- One `otherSections` entry of `handleDownloadPdf`. -/
def pdfOtherSection (wrap : Wrap) (d : PdfDoc) (sec : ResumeSection) : PdfDoc :=
  let d := printSectionTitle sec.title d
  (jsSplitNl sec.body).foldl (pdfOtherLine wrap) d

/-- The whole of `handleDownloadPdf` as a state transformer from the initial
document state. -/
def handleDownloadPdf (wrap : Wrap) (r : Resume) : PdfDoc :=
  let d := pdfInit
  let d := pdfHeader r d
  let d := pdfSummary wrap r d
  let d := pdfWork wrap r d
  let d := pdfEdu wrap r d
  r.otherSections.foldl (pdfOtherSection wrap) d

/-- The draw events of a full PDF emission, in draw order. -/
def pdfRun (wrap : Wrap) (r : Resume) : List DrawEvent :=
  (handleDownloadPdf wrap r).events

/-- A draw event lies inside the printable vertical band of its page: it
starts at or below the top margin and, whenever its own drawn height fits
the printable height of one page, it also ends above the bottom margin of
that same page. -/
def eventOK (e : DrawEvent) : Prop :=
  margin ≤ e.y ∧
    (wrapAdvance e.lines ≤ pageHeight - 2 * margin →
      e.y + wrapAdvance e.lines ≤ pageHeight - margin)

/-- Invariant carried through the emission: the cursor is at or below the top
margin and every draw performed so far is inside the printable band. -/
def docOK (d : PdfDoc) : Prop :=
  margin ≤ d.yPos ∧ ∀ e ∈ d.events, eventOK e

/-! ### Spec-side contact line

A second definition of the contact line, following the specification text:
the non-empty fields among phone, email, linkedin, address, in that fixed
order, joined with " / ", skipping absent ones.  It is compared with the
source-derived `contactInfo`. -/

/-- The non-empty fields among phone, email, linkedin, address, in order. -/
def specContactFields (r : Resume) : List String :=
  (if r.phone = "" then [] else [r.phone])
    ++ (if r.email = "" then [] else [r.email])
    ++ (match r.linkedin with
        | some l => if l = "" then [] else [l]
        | none => [])
    ++ (match r.address with
        | some a => if a = "" then [] else [a]
        | none => [])

/-- The contact line as the specification words it. -/
def specContactLine (r : Resume) : String :=
  jsJoin " / " (specContactFields r)

/-! ### Line predicates -/

/-- A string is empty or does not begin with a whitespace character. -/
def noLeadWs (s : String) : Bool :=
  match s.data with
  | [] => true
  | c :: _ => !(jsIsWs c)

/-- A section-body line on which the two emitters strip identically: either
it does not begin with a hyphen or an asterisk at all, or it is a proper
bullet line (marker plus space) whose remainder does not begin with further
whitespace. -/
def goodLine (l : String) : Bool :=
  !(jsStartsWith l "-" || jsStartsWith l "*")
    || (isBulletLine l && noLeadWs (jsSubstringFrom l 2))

/-! ### JSON values and the zod output schemas

`GenerateTailoredResumeOutputSchema` of
`src/ai/flows/generate-tailored-resume.ts` and `CareerChatOutputSchema` of
`src/ai/flows/career-chatbot.ts` are zod object schemas; genkit validates
flow outputs against them at run time.  Raw structured values are modelled
by a small JSON universe; a validator returns either the parsed value or the
list of the paths of all violated fields (zod reports every issue of a parse
in one error). -/

inductive Json where
  | str (s : String)
  | num (n : ℤ)
  | bool (b : Bool)
  | null
  | arr (elems : List Json)
  | obj (fields : List (String × Json))

/-- Lookup of a key in a JSON object field list. -/
def jLookup (fields : List (String × Json)) (k : String) : Option Json :=
  match fields with
  | [] => none
  | (k2, v) :: rest => if k2 == k then some v else jLookup rest k

/-- Issue-collecting combination of two validation results, as zod collects
the issues of every field of an object before failing. -/
def zMerge2 {A B : Type} :
    Except (List String) A → Except (List String) B → Except (List String) (A × B)
  | .ok a, .ok b => .ok (a, b)
  | .ok _, .error e => .error e
  | .error e, .ok _ => .error e
  | .error e1, .error e2 => .error (e1 ++ e2)

/-- zod `z.string()` on a required object field: fails when the field is
absent or not a string; any string, empty included, is accepted. -/
def zString (path : String) : Option Json → Except (List String) String
  | some (Json.str s) => .ok s
  | _ => .error [path]

/-- zod `z.string().optional()`: an absent field parses to `none`. -/
def zOptionalString (path : String) : Option Json → Except (List String) (Option String)
  | none => .ok none
  | some (Json.str s) => .ok (some s)
  | some _ => .error [path]

/-- zod `ResumeSectionSchema`: an object with string fields title and body. -/
def zResumeSection (path : String) : Json → Except (List String) ResumeSection :=
  fun j =>
    match j with
    | Json.obj fields =>
      match zMerge2 (zString (path ++ ".title") (jLookup fields "title"))
          (zString (path ++ ".body") (jLookup fields "body")) with
      | .ok (t, b) => .ok ⟨t, b⟩
      | .error e => .error e
    | _ => .error [path]

/-- Element-wise validation of a section array with zod-style indexed paths,
collecting the issues of every element. -/
def zResumeSections (path : String) : List Json → ℕ → Except (List String) (List ResumeSection)
  | [], _ => .ok []
  | j :: rest, i =>
    match zMerge2 (zResumeSection (path ++ "." ++ toString i) j)
        (zResumeSections path rest (i + 1)) with
    | .ok (s, ss) => .ok (s :: ss)
    | .error e => .error e

/-- zod `z.array(ResumeSectionSchema)` on a required field. -/
def zSectionArray (path : String) : Option Json → Except (List String) (List ResumeSection)
  | some (Json.arr elems) => zResumeSections path elems 0
  | _ => .error [path]

/-- The parsed value of `GenerateTailoredResumeOutputSchema`. -/
structure TailoredResume where
  name : String
  email : String
  phone : String
  linkedin : Option String
  summary : String
  sections : List ResumeSection
  fullResumeText : String
deriving DecidableEq, Repr

/-- Validation against `GenerateTailoredResumeOutputSchema`, with a path
prefix for nested use: required string fields name, email, phone, summary,
fullResumeText, optional string linkedin, required section array. -/
def validateTailoredAt (pre : String) (j : Json) : Except (List String) TailoredResume :=
  match j with
  | Json.obj fields =>
    match zMerge2 (zString (pre ++ "name") (jLookup fields "name"))
        (zMerge2 (zString (pre ++ "email") (jLookup fields "email"))
          (zMerge2 (zString (pre ++ "phone") (jLookup fields "phone"))
            (zMerge2 (zOptionalString (pre ++ "linkedin") (jLookup fields "linkedin"))
              (zMerge2 (zString (pre ++ "summary") (jLookup fields "summary"))
                (zMerge2 (zSectionArray (pre ++ "sections") (jLookup fields "sections"))
                  (zString (pre ++ "fullResumeText")
                    (jLookup fields "fullResumeText"))))))) with
    | .ok (n, e, p, l, s, sec, f) => .ok ⟨n, e, p, l, s, sec, f⟩
    | .error errs => .error errs
  | _ => .error [pre ++ "(root)"]

/-- Validation of a raw generation output at the root. -/
def validateTailored (j : Json) : Except (List String) TailoredResume :=
  validateTailoredAt "" j

/-- The collected issue paths of a validation result. -/
def exceptErrors {A : Type} : Except (List String) A → List String
  | .ok _ => []
  | .error e => e

/-- The parsed value of `CareerChatOutputSchema`. -/
structure CareerChatOutput where
  response : String
  resumeData : Option TailoredResume
deriving DecidableEq, Repr

/-- zod `GenerateTailoredResumeOutputSchema.optional()`: an absent field
parses to `none`; a present field must pass the full resume schema. -/
def zOptionalResume (path : String) : Option Json → Except (List String) (Option TailoredResume)
  | none => .ok none
  | some j =>
    match validateTailoredAt (path ++ ".") j with
    | .ok r => .ok (some r)
    | .error e => .error e

/-- Validation against `CareerChatOutputSchema`: required string response,
optional resumeData validated by the full resume schema. -/
def validateChatOutput (j : Json) : Except (List String) CareerChatOutput :=
  match j with
  | Json.obj fields =>
    match zMerge2 (zString "response" (jLookup fields "response"))
        (zOptionalResume "resumeData" (jLookup fields "resumeData")) with
    | .ok (resp, rd) => .ok ⟨resp, rd⟩
    | .error e => .error e
  | _ => .error ["(root)"]

/-! ### Chat page handler

`handleSendMessage` of `src/app/chatbot/page.tsx`: when the trimmed input is
empty or a call is in flight nothing happens; on a successful `careerChat`
call the user message and the model response are appended; when the call
throws, the state is reset to the pre-turn history (captured before the
optimistic append) plus one fixed apology message, so the triggering user
message is dropped. -/

inductive ChatRole where
  | user
  | model
deriving DecidableEq, Repr

structure ChatMessage where
  role : ChatRole
  content : String
deriving DecidableEq, Repr

/-- The fixed apology message of the catch branch. -/
def apologyMessage : ChatMessage :=
  ⟨ChatRole.model, "Sorry, I ran into an error. Please try sending your message again."⟩

/-- The resulting message history of one `handleSendMessage` turn, given the
history before the turn, the input, the loading flag, and the outcome of the
`careerChat` call. -/
def handleSendMessage (messages : List ChatMessage) (input : String)
    (isLoading : Bool) (result : Except Unit CareerChatOutput) : List ChatMessage :=
  if jsTrim input == "" || isLoading then messages
  else
    match result with
    | .ok out => (messages ++ [⟨ChatRole.user, input⟩]) ++ [⟨ChatRole.model, out.response⟩]
    | .error _ => messages ++ [apologyMessage]

/-! ### Concrete demonstration inputs -/

/-- A resume whose single extra section carries a line starting with a
hyphen but no space, and a blank line. -/
def bulletDemoResume : Resume :=
  ⟨"A", none, "", "", none, none, none, [], [],
    [⟨"Skills", "-Led\x0a"⟩]⟩

/-- A resume with an empty work-experience sequence whose extra section is
titled Work Experience. -/
def workTitledResume : Resume :=
  ⟨"A", none, "", "", none, none, none, [], [], [⟨"Work Experience", "x"⟩]⟩

/-- The contact-line example of the specification. -/
def contactDemoResume : Resume :=
  ⟨"A", none, "a@b.com", "555-1234", none, some "NYC", none, [], [], []⟩

/-- A resume exercising every emitter branch with well-formed section-body
lines. -/
def wellFormedResume : Resume :=
  ⟨"John Doe", some "Engineer", "j@d.com", "555", some "li/jd", none,
    some ⟨"Summary", "Builds things."⟩,
    [⟨"Dev", "Acme", "NYC", "2020", ["Did X", "Did Y"]⟩],
    [⟨"BS", "MIT", some "MA", some "2016", some ["Honors"]⟩],
    [⟨"Skills", "- Lean\x0a- Proofs\x0a\x0aPlain line"⟩]⟩

/-- A raw generation output whose required fields are all present but all
empty strings. -/
def rawResumeAllEmpty : Json :=
  Json.obj [("name", Json.str ""), ("email", Json.str ""), ("phone", Json.str ""),
    ("summary", Json.str ""), ("sections", Json.arr []),
    ("fullResumeText", Json.str "")]

/-- A complete raw generation output with no optional fields. -/
def rawResumeComplete : Json :=
  Json.obj [("name", Json.str "John Doe"), ("email", Json.str "j@d.com"),
    ("phone", Json.str "555"), ("summary", Json.str "S"),
    ("sections", Json.arr [Json.obj [("title", Json.str "Skills"),
      ("body", Json.str "- Lean")]]),
    ("fullResumeText", Json.str "full")]

/-- A raw generation output missing both email and phone. -/
def rawResumeMissingTwo : Json :=
  Json.obj [("name", Json.str "John Doe"), ("summary", Json.str "S"),
    ("sections", Json.arr []), ("fullResumeText", Json.str "full")]

/-- A raw chat output carrying a complete resume. -/
def rawChatWithResume : Json :=
  Json.obj [("response", Json.str "Done."), ("resumeData", rawResumeComplete)]

/-- Text and bullet flag of each draw event. -/
def eventsKey (l : List DrawEvent) : List Para :=
  l.map fun e => ⟨e.text, e.bullet⟩

/-- A wrapping oracle in which every text wraps to a single line. -/
def wrapOne : Wrap :=
  fun _ _ => 1

/-- A minimal resume: a name and nothing else. -/
def sampleResume : Resume :=
  ⟨"A", none, "", "", none, none, none, [], [], []⟩

/-! ### Pagination invariant lemmas -/

theorem margin_val : margin = 4000 := by norm_num [margin, pt]

theorem pageHeight_val : pageHeight = 84189 := rfl

theorem sectionSpacing_val : sectionSpacing = 2000 := by norm_num [sectionSpacing, pt]

theorem wrapAdvance_val (n : ℕ) : wrapAdvance n = 1200 * (n : ℤ) := by
  unfold wrapAdvance lineSpacing; ring

theorem pt_val (n : ℤ) : pt n = 100 * n := rfl

theorem checkPageBreak_events (h : ℤ) (d : PdfDoc) :
    (checkPageBreak h d).events = d.events := by
  unfold checkPageBreak; split <;> rfl

theorem checkPageBreak_yPos (h : ℤ) (d : PdfDoc) :
    (checkPageBreak h d).yPos = margin ∨
      ((checkPageBreak h d).yPos = d.yPos ∧ d.yPos + h ≤ pageHeight - margin) := by
  unfold checkPageBreak; split
  · exact Or.inl rfl
  · next hc => exact Or.inr ⟨rfl, by omega⟩

theorem eventOK_mk (p : ℕ) (y : ℤ) (n : ℕ) (t : String) (b : Bool)
    (h1 : margin ≤ y)
    (h2 : wrapAdvance n ≤ pageHeight - 2 * margin → y + wrapAdvance n ≤ pageHeight - margin) :
    eventOK ⟨p, y, n, t, b⟩ :=
  ⟨h1, h2⟩

theorem docOK_checkPageBreak (h : ℤ) (d : PdfDoc) (hd : docOK d) :
    docOK (checkPageBreak h d) := by
  constructor
  · rcases checkPageBreak_yPos h d with h1 | ⟨h1, _⟩
    · rw [h1]
    · rw [h1]; exact hd.1
  · intro e he
    rw [checkPageBreak_events] at he
    exact hd.2 e he

theorem docOK_addY (q : ℤ) (hq : 0 ≤ q) (d : PdfDoc) (hd : docOK d) :
    docOK (addY q d) := by
  constructor
  · show margin ≤ d.yPos + q
    have := hd.1; omega
  · exact hd.2

theorem docOK_drawText (t : String) (b : Bool) (n : ℕ) (d : PdfDoc)
    (hd : docOK d) (he : eventOK ⟨d.page, d.yPos, n, t, b⟩) :
    docOK (drawText t b n d) := by
  refine ⟨hd.1, ?_⟩
  intro e hmem
  simp only [drawText, List.mem_append, List.mem_singleton] at hmem
  rcases hmem with h | h
  · exact hd.2 e h
  · subst h; exact he

theorem foldl_docOK {α : Type} (f : PdfDoc → α → PdfDoc)
    (hf : ∀ d a, docOK d → docOK (f d a)) :
    ∀ (l : List α) (d : PdfDoc), docOK d → docOK (l.foldl f d) := by
  intro l
  induction l with
  | nil => intro d hd; exact hd
  | cons a tl ih => intro d hd; exact ih _ (hf d a hd)

theorem docOK_wrappedDraw (t : String) (b : Bool) (n : ℕ) (extra : ℤ)
    (hextra : 0 ≤ extra) (d : PdfDoc) (hd : docOK d) :
    docOK (addY extra (drawText t b n (checkPageBreak (wrapAdvance n) d))) := by
  have h1 := docOK_checkPageBreak (wrapAdvance n) d hd
  apply docOK_addY _ hextra
  apply docOK_drawText _ _ _ _ h1
  apply eventOK_mk
  · exact h1.1
  · intro hfit
    rcases checkPageBreak_yPos (wrapAdvance n) d with hy | ⟨hy, hle⟩
    · rw [hy]; omega
    · rw [hy]; exact hle

theorem docOK_printSectionTitle (title : String) (d : PdfDoc) (hd : docOK d) :
    docOK (printSectionTitle title d) := by
  unfold printSectionTitle
  have h1 := docOK_checkPageBreak (pt 30) d hd
  apply docOK_addY _ (by norm_num [pt])
  apply docOK_addY _ (by norm_num [pt])
  apply docOK_drawText
  · exact docOK_addY _ (by norm_num [sectionSpacing_val]) _ h1
  · apply eventOK_mk
    · show margin ≤ (checkPageBreak (pt 30) d).yPos + sectionSpacing / 2
      have := h1.1
      rw [sectionSpacing_val]; omega
    · intro _
      show (checkPageBreak (pt 30) d).yPos + sectionSpacing / 2 + wrapAdvance 1 ≤
        pageHeight - margin
      rcases checkPageBreak_yPos (pt 30) d with hy | ⟨hy, hle⟩
      · rw [hy, sectionSpacing_val, wrapAdvance_val, margin_val, pageHeight_val]; norm_num
      · rw [hy, sectionSpacing_val, wrapAdvance_val]
        rw [pt_val] at hle
        norm_num
        omega

theorem docOK_entryHead (t1 t2 : String) (c : ℤ) (hc : pt 24 ≤ c)
    (d : PdfDoc) (hd : docOK d) :
    docOK (addY (pt 15)
      (drawText t2 false 1 (addY (pt 12) (drawText t1 false 1 (checkPageBreak c d))))) := by
  have h1 := docOK_checkPageBreak c d hd
  have hy1 : margin ≤ (checkPageBreak c d).yPos := h1.1
  have hy2 : (checkPageBreak c d).yPos + pt 24 ≤ pageHeight - margin := by
    rcases checkPageBreak_yPos c d with hy | ⟨hy, hle⟩
    · rw [hy, margin_val, pageHeight_val, pt_val]; norm_num
    · rw [hy]; omega
  apply docOK_addY _ (by norm_num [pt])
  apply docOK_drawText
  · apply docOK_addY _ (by norm_num [pt])
    apply docOK_drawText _ _ _ _ h1
    apply eventOK_mk _ _ _ _ _ hy1
    intro _
    rw [wrapAdvance_val]
    rw [pt_val] at hy2
    omega
  · apply eventOK_mk
    · show margin ≤ (checkPageBreak c d).yPos + pt 12
      rw [pt_val]; omega
    · intro _
      show (checkPageBreak c d).yPos + pt 12 + wrapAdvance 1 ≤ pageHeight - margin
      rw [wrapAdvance_val, pt_val]
      rw [pt_val] at hy2
      omega

theorem docOK_pdfDescBullet (wrap : Wrap) (desc : String) (d : PdfDoc)
    (hd : docOK d) : docOK (pdfDescBullet wrap desc d) := by
  unfold pdfDescBullet
  apply docOK_wrappedDraw
  · simp only [wrapAdvance_val, pt_val]; omega
  · exact hd

theorem docOK_pdfJob (wrap : Wrap) (d : PdfDoc) (job : WorkItem) (hd : docOK d) :
    docOK (pdfJob wrap d job) := by
  unfold pdfJob
  apply docOK_addY _ (by norm_num [pt])
  apply foldl_docOK _ (fun d a hda => docOK_pdfDescBullet wrap a d hda)
  exact docOK_entryHead _ _ _ (by norm_num [pt]) d hd

theorem docOK_pdfWork (wrap : Wrap) (r : Resume) (d : PdfDoc) (hd : docOK d) :
    docOK (pdfWork wrap r d) := by
  unfold pdfWork
  split
  · exact hd
  · exact foldl_docOK _ (fun d a hda => docOK_pdfJob wrap d a hda) _ _
      (docOK_printSectionTitle _ _ hd)

theorem docOK_pdfEduItem (wrap : Wrap) (d : PdfDoc) (edu : EducationItem)
    (hd : docOK d) : docOK (pdfEduItem wrap d edu) := by
  unfold pdfEduItem
  apply docOK_addY _ (by norm_num [pt])
  have hhead := docOK_entryHead edu.degree (eduDetails edu) (pt 40)
    (by norm_num [pt]) d hd
  cases edu.details with
  | none => exact hhead
  | some ds =>
    exact foldl_docOK _ (fun d a hda => docOK_pdfDescBullet wrap a d hda) _ _ hhead

theorem docOK_pdfEdu (wrap : Wrap) (r : Resume) (d : PdfDoc) (hd : docOK d) :
    docOK (pdfEdu wrap r d) := by
  unfold pdfEdu
  split
  · exact hd
  · exact foldl_docOK _ (fun d a hda => docOK_pdfEduItem wrap d a hda) _ _
      (docOK_printSectionTitle _ _ hd)

theorem docOK_pdfSummary (wrap : Wrap) (r : Resume) (d : PdfDoc) (hd : docOK d) :
    docOK (pdfSummary wrap r d) := by
  unfold pdfSummary
  cases r.summary with
  | none => exact hd
  | some s =>
    simp only
    split
    · exact hd
    · apply docOK_wrappedDraw
      · rw [wrapAdvance_val]; positivity
      · exact docOK_printSectionTitle _ _ hd

theorem docOK_pdfOtherLine (wrap : Wrap) (d : PdfDoc) (line : String)
    (hd : docOK d) : docOK (pdfOtherLine wrap d line) := by
  unfold pdfOtherLine
  apply docOK_wrappedDraw
  · simp only [wrapAdvance_val, pt_val]; omega
  · exact hd

theorem docOK_pdfOtherSection (wrap : Wrap) (d : PdfDoc) (sec : ResumeSection)
    (hd : docOK d) : docOK (pdfOtherSection wrap d sec) := by
  unfold pdfOtherSection
  exact foldl_docOK _ (fun d a hda => docOK_pdfOtherLine wrap d a hda) _ _
    (docOK_printSectionTitle _ _ hd)

theorem eventOK_header (p : ℕ) (y : ℤ) (t : String) (b : Bool)
    (h1 : 4000 ≤ y) (h2 : y ≤ 8400) : eventOK ⟨p, y, 1, t, b⟩ := by
  apply eventOK_mk
  · rw [margin_val]; omega
  · intro _
    rw [wrapAdvance_val, margin_val, pageHeight_val]; omega

theorem docOK_pdfHeader (r : Resume) : docOK (pdfHeader r pdfInit) := by
  unfold pdfHeader pdfInit
  have hbase : docOK (⟨0, pt 40, []⟩ : PdfDoc) := by
    constructor
    · rw [margin_val, pt_val]; norm_num
    · intro e he; simp at he
  cases hct : r.candidateTitle with
  | none =>
    simp only [hct]
    apply docOK_addY _ (by norm_num [sectionSpacing_val])
    apply docOK_drawText
    · exact docOK_addY _ (by norm_num [pt]) _ (docOK_drawText _ _ _ _ hbase
        (eventOK_header _ _ _ _ (by norm_num [pt]) (by norm_num [pt])))
    · exact eventOK_header _ _ _ _ (by norm_num [addY, drawText, pt])
        (by norm_num [addY, drawText, pt])
  | some t =>
    simp only [hct]
    split
    · apply docOK_addY _ (by norm_num [sectionSpacing_val])
      apply docOK_drawText
      · exact docOK_addY _ (by norm_num [pt]) _ (docOK_drawText _ _ _ _ hbase
          (eventOK_header _ _ _ _ (by norm_num [pt]) (by norm_num [pt])))
      · exact eventOK_header _ _ _ _ (by norm_num [addY, drawText, pt])
          (by norm_num [addY, drawText, pt])
    · apply docOK_addY _ (by norm_num [sectionSpacing_val])
      apply docOK_drawText
      · apply docOK_addY _ (by norm_num [pt])
        apply docOK_drawText
        · exact docOK_addY _ (by norm_num [pt]) _ (docOK_drawText _ _ _ _ hbase
            (eventOK_header _ _ _ _ (by norm_num [pt]) (by norm_num [pt])))
        · exact eventOK_header _ _ _ _ (by norm_num [addY, drawText, pt])
            (by norm_num [addY, drawText, pt])
      · exact eventOK_header _ _ _ _ (by norm_num [addY, drawText, pt])
          (by norm_num [addY, drawText, pt])

theorem docOK_handleDownloadPdf (wrap : Wrap) (r : Resume) :
    docOK (handleDownloadPdf wrap r) := by
  unfold handleDownloadPdf
  exact foldl_docOK _ (fun d a hda => docOK_pdfOtherSection wrap d a hda) _ _
    (docOK_pdfEdu wrap r _ (docOK_pdfWork wrap r _
      (docOK_pdfSummary wrap r _ (docOK_pdfHeader r))))

/-! ### Draw events versus draw texts

The text/bullet content of the geometric emitter agrees, draw for draw, with
the pure draw-text list `pdfDrawTexts`. -/

theorem flatMap_one {α β : Type} (f : α → β) (l : List α) :
    (l.flatMap fun a => [f a]) = l.map f := by
  induction l with
  | nil => rfl
  | cons a tl ih => simp [ih]

theorem eventsKey_foldl {α : Type} (f : PdfDoc → α → PdfDoc) (g : α → List Para)
    (hf : ∀ d a, eventsKey (f d a).events = eventsKey d.events ++ g a) :
    ∀ (l : List α) (d : PdfDoc),
      eventsKey (l.foldl f d).events = eventsKey d.events ++ l.flatMap g := by
  intro l
  induction l with
  | nil => intro d; simp
  | cons a tl ih => intro d; simp [ih, hf]

theorem eventsKey_drawText (t : String) (b : Bool) (n : ℕ) (d : PdfDoc) :
    eventsKey (drawText t b n d).events = eventsKey d.events ++ [⟨t, b⟩] := by
  simp [drawText, eventsKey]

theorem eventsKey_printSectionTitle (title : String) (d : PdfDoc) :
    eventsKey (printSectionTitle title d).events
      = eventsKey d.events ++ [⟨jsUpper title, false⟩] := by
  unfold printSectionTitle
  simp only [addY, eventsKey_drawText]
  rw [checkPageBreak_events]

theorem eventsKey_pdfHeader (r : Resume) (d : PdfDoc) :
    eventsKey (pdfHeader r d).events = eventsKey d.events ++ pdfHeaderTexts r := by
  unfold pdfHeader pdfHeaderTexts
  cases r.candidateTitle with
  | none => simp [addY, eventsKey_drawText]
  | some t =>
    by_cases ht : t == "" <;> simp [ht, addY, eventsKey_drawText]

theorem eventsKey_pdfSummary (wrap : Wrap) (r : Resume) (d : PdfDoc) :
    eventsKey (pdfSummary wrap r d).events = eventsKey d.events ++ pdfSummaryTexts r := by
  unfold pdfSummary pdfSummaryTexts
  cases r.summary with
  | none => simp
  | some s =>
    by_cases hb : s.body == ""
    · simp [hb]
    · simp only [hb, if_neg, Bool.false_eq_true, not_false_eq_true, addY,
        eventsKey_drawText]
      rw [checkPageBreak_events, eventsKey_printSectionTitle]
      simp

theorem eventsKey_pdfDescBullet (wrap : Wrap) (desc : String) (d : PdfDoc) :
    eventsKey (pdfDescBullet wrap desc d).events
      = eventsKey d.events ++ [pdfBullet desc] := by
  unfold pdfDescBullet pdfBullet
  simp only [addY, eventsKey_drawText]
  rw [checkPageBreak_events]

theorem eventsKey_pdfJob (wrap : Wrap) (d : PdfDoc) (job : WorkItem) :
    eventsKey (pdfJob wrap d job).events = eventsKey d.events ++ pdfJobTexts job := by
  unfold pdfJob pdfJobTexts
  simp only [addY]
  rw [eventsKey_foldl _ (fun desc => [pdfBullet desc])
    (fun d a => eventsKey_pdfDescBullet wrap a d)]
  simp only [eventsKey_drawText, addY]
  rw [checkPageBreak_events]
  simp [flatMap_one]

theorem eventsKey_pdfWork (wrap : Wrap) (r : Resume) (d : PdfDoc) :
    eventsKey (pdfWork wrap r d).events = eventsKey d.events ++ pdfWorkTexts r := by
  unfold pdfWork pdfWorkTexts
  split
  · simp
  · rw [eventsKey_foldl _ pdfJobTexts (fun d a => eventsKey_pdfJob wrap d a),
      eventsKey_printSectionTitle]
    simp

theorem eventsKey_pdfEduItem (wrap : Wrap) (d : PdfDoc) (edu : EducationItem) :
    eventsKey (pdfEduItem wrap d edu).events
      = eventsKey d.events ++ pdfEduItemTexts edu := by
  unfold pdfEduItem pdfEduItemTexts
  cases edu.details with
  | none =>
    simp only [addY, eventsKey_drawText]
    rw [checkPageBreak_events]
    simp
  | some ds =>
    simp only [addY]
    rw [eventsKey_foldl _ (fun detail => [pdfBullet detail])
      (fun d a => eventsKey_pdfDescBullet wrap a d)]
    simp only [eventsKey_drawText, addY]
    rw [checkPageBreak_events]
    simp [flatMap_one]

theorem eventsKey_pdfEdu (wrap : Wrap) (r : Resume) (d : PdfDoc) :
    eventsKey (pdfEdu wrap r d).events = eventsKey d.events ++ pdfEduTexts r := by
  unfold pdfEdu pdfEduTexts
  split
  · simp
  · rw [eventsKey_foldl _ pdfEduItemTexts (fun d a => eventsKey_pdfEduItem wrap d a),
      eventsKey_printSectionTitle]
    simp

theorem eventsKey_pdfOtherLine (wrap : Wrap) (d : PdfDoc) (line : String) :
    eventsKey (pdfOtherLine wrap d line).events
      = eventsKey d.events ++ [pdfSectionLine line] := by
  unfold pdfOtherLine pdfSectionLine
  by_cases hb : isBulletLine line
  · simp only [hb, if_pos, addY, eventsKey_drawText]
    rw [checkPageBreak_events]
  · simp only [hb, Bool.false_eq_true, if_neg, not_false_eq_true, addY,
      eventsKey_drawText]
    rw [checkPageBreak_events]

theorem eventsKey_pdfOtherSection (wrap : Wrap) (d : PdfDoc) (sec : ResumeSection) :
    eventsKey (pdfOtherSection wrap d sec).events
      = eventsKey d.events ++ pdfOtherSectionTexts sec := by
  unfold pdfOtherSection pdfOtherSectionTexts
  rw [eventsKey_foldl _ (fun line => [pdfSectionLine line])
    (fun d a => eventsKey_pdfOtherLine wrap d a), eventsKey_printSectionTitle]
  simp [flatMap_one]

theorem pdfRun_texts (wrap : Wrap) (r : Resume) :
    eventsKey (pdfRun wrap r) = pdfDrawTexts r := by
  unfold pdfRun handleDownloadPdf pdfDrawTexts pdfInit
  rw [eventsKey_foldl _ pdfOtherSectionTexts
    (fun d a => eventsKey_pdfOtherSection wrap d a), eventsKey_pdfEdu,
    eventsKey_pdfWork, eventsKey_pdfSummary, eventsKey_pdfHeader]
  simp [eventsKey]

/-- C1: the PDF emitter keeps a running vertical cursor starting at the top
margin; `checkPageBreak` starts a new page and resets the cursor to the top
margin exactly when the cursor plus the needed space would pass the
printable page height (page height minus the margin), and in every emission
every draw whose own wrapped-text height fits within the printable height of
one page lies entirely inside the printable band of the single page it is
drawn on. -/
theorem C1_pdf_pagination :
    (∀ (spaceNeeded : ℤ) (d : PdfDoc),
        (pageHeight - margin < d.yPos + spaceNeeded →
          checkPageBreak spaceNeeded d = ⟨d.page + 1, margin, d.events⟩) ∧
        (d.yPos + spaceNeeded ≤ pageHeight - margin →
          checkPageBreak spaceNeeded d = d)) ∧
    (∀ (wrap : Wrap) (r : Resume), ∀ e ∈ pdfRun wrap r, eventOK e) := by
  constructor
  · intro s d
    constructor
    · intro h
      unfold checkPageBreak
      rw [if_pos]
      omega
    · intro h
      unfold checkPageBreak
      rw [if_neg]
      omega
  · intro wrap r e he
    unfold pdfRun at he
    exact (docOK_handleDownloadPdf wrap r).2 e he

/-- Witness for C1 at concrete inputs: a break fires just past the printable
height, and the first draw of a minimal emission is inside the printable
band. -/
theorem C1_pdf_pagination_witness :
    checkPageBreak (pt 5) ⟨0, 80000, []⟩ = ⟨1, margin, []⟩ ∧
      eventOK ⟨0, pt 40, 1, jsUpper "A", false⟩ :=
  ⟨(C1_pdf_pagination.1 (pt 5) ⟨0, 80000, []⟩).1 (by decide),
   C1_pdf_pagination.2 wrapOne sampleResume ⟨0, pt 40, 1, jsUpper "A", false⟩
     (by decide)⟩

/-! ### Bullet-line structure lemmas -/

theorem marker_of_isBulletLine (l : String) (h : isBulletLine l = true) :
    (jsStartsWith l "-" || jsStartsWith l "*") = true := by
  unfold isBulletLine at h
  unfold jsStartsWith at h ⊢
  obtain ⟨data⟩ := l
  cases data with
  | nil => simp [List.isPrefixOf] at h
  | cons c rest =>
    simp [List.isPrefixOf] at h ⊢
    rcases h with ⟨hc, _⟩ | ⟨hc, _⟩
    · exact Or.inl hc
    · exact Or.inr hc

theorem jsStripLeadBullet_of_not_marker (l : String)
    (h : (jsStartsWith l "-" || jsStartsWith l "*") = false) :
    jsStripLeadBullet l = l := by
  unfold jsStripLeadBullet
  rw [h]
  simp

theorem isBulletLine_of_not_marker (l : String)
    (h : (jsStartsWith l "-" || jsStartsWith l "*") = false) :
    isBulletLine l = false := by
  cases hb : isBulletLine l
  · rfl
  · rw [marker_of_isBulletLine l hb] at h
    exact absurd h (by simp)

theorem bullet_line_shape (l : String) (h : isBulletLine l = true) :
    ∃ (m : Char) (rest : List Char),
      (m = '-' ∨ m = '*') ∧ l.data = m :: ' ' :: rest := by
  unfold isBulletLine jsStartsWith at h
  obtain ⟨data⟩ := l
  cases data with
  | nil => simp [List.isPrefixOf] at h
  | cons c tail =>
    cases tail with
    | nil => simp [List.isPrefixOf] at h
    | cons c2 rest =>
      simp [List.isPrefixOf] at h
      rcases h with ⟨hc, hc2⟩ | ⟨hc, hc2⟩
      · exact ⟨c, rest, Or.inl hc.symm, by rw [← hc2]⟩
      · exact ⟨c, rest, Or.inr hc.symm, by rw [← hc2]⟩

theorem strip_eq_drop2 (l : String) (hb : isBulletLine l = true)
    (hw : noLeadWs (jsSubstringFrom l 2) = true) :
    jsStripLeadBullet l = jsSubstringFrom l 2 := by
  obtain ⟨m, rest, hm, hdata⟩ := bullet_line_shape l hb
  have hmark : (jsStartsWith l "-" || jsStartsWith l "*") = true := by
    unfold jsStartsWith
    rw [hdata]
    rcases hm with hm | hm <;> subst hm <;> simp [List.isPrefixOf]
  unfold jsStripLeadBullet
  rw [hmark]
  simp only [if_pos]
  unfold dropWhileWs jsSubstringFrom
  rw [hdata]
  simp only [List.drop_succ_cons, List.drop_zero, List.dropWhile_cons]
  have hsp : jsIsWs ' ' = true := by decide
  rw [hsp]
  simp only [if_pos]
  unfold noLeadWs jsSubstringFrom at hw
  rw [hdata] at hw
  simp only [List.drop_succ_cons, List.drop_zero] at hw
  cases rest with
  | nil => rfl
  | cons c tl =>
    simp only at hw
    rw [List.dropWhile_cons]
    have : jsIsWs c = false := by
      cases hc : jsIsWs c
      · rfl
      · rw [hc] at hw; exact absurd hw (by simp)
    rw [this]
    simp

theorem drop2_glyph (s : String) : jsSubstringFrom ("• " ++ s) 2 = s := by
  unfold jsSubstringFrom
  have h : ("• " ++ s).data = '•' :: ' ' :: s.data := rfl
  rw [h]
  rfl

/-! ### Claim C5 -/

theorem filterBoolean_eq_flat (l : List (Option String)) :
    filterBoolean l = l.flatMap fun o =>
      match o with
      | some s => if s = "" then [] else [s]
      | none => [] := by
  induction l with
  | nil => rfl
  | cons a tl ih =>
    cases a with
    | none =>
      simp only [filterBoolean, List.filterMap_cons, List.flatMap_cons] at *
      simpa using ih
    | some s =>
      by_cases hs : s = ""
      · subst hs
        simp only [filterBoolean, List.filterMap_cons, List.flatMap_cons] at *
        simpa using ih
      · have hs2 : (s == "") = false := by simp [hs]
        simp only [filterBoolean, List.filterMap_cons, List.flatMap_cons, hs2,
          if_neg hs] at *
        simp only [List.nil_append, List.singleton_append]
        rw [← ih]
        rfl

/-- C5: the contact line of both emitters is the non-empty fields among
phone, email, linkedin, address, taken in exactly that order, joined with
" / " and skipping absent fields; on the specification example it is
exactly "555-1234 / a@b.com / NYC". -/
theorem C5_contact_line :
    (∀ r : Resume, contactInfo r = specContactLine r) ∧
      contactInfo contactDemoResume = "555-1234 / a@b.com / NYC" := by
  constructor
  · intro r
    unfold contactInfo specContactLine specContactFields
    rw [filterBoolean_eq_flat]
    cases r.linkedin <;> cases r.address <;>
      simp [List.flatMap_cons, List.flatMap_nil]
  · decide

/-! ### Claim C8 -/

/-- C8: deriving the emitted documents from the same Resume twice yields
identical block sequences; both emitters are pure functions of the Resume
(and, for the PDF emitter, of the explicit text-measurement oracle), with no
other input. -/
theorem C8_layout_determinism :
    ∀ (wrap : Wrap) (r1 r2 : Resume), r1 = r2 →
      docxChildren r1 = docxChildren r2 ∧ pdfRun wrap r1 = pdfRun wrap r2 := by
  intro wrap r1 r2 h
  subst h
  exact ⟨rfl, rfl⟩

/-- Witness for C8 on a concrete resume. -/
theorem C8_layout_determinism_witness :
    docxChildren wellFormedResume = docxChildren wellFormedResume ∧
      pdfRun wrapOne wellFormedResume = pdfRun wrapOne wellFormedResume :=
  C8_layout_determinism wrapOne wellFormedResume wellFormedResume rfl

theorem sectionLine_unchanged (line : String)
    (h : (jsStartsWith line "-" || jsStartsWith line "*") = false) :
    docxSectionLine line = ⟨line, false⟩ ∧ pdfSectionLine line = ⟨line, false⟩ := by
  have hnb := isBulletLine_of_not_marker line h
  constructor
  · unfold docxSectionLine
    rw [jsStripLeadBullet_of_not_marker line h, hnb]
  · unfold pdfSectionLine
    rw [hnb]
    simp

theorem sectionLine_strip (line : String) (hb : isBulletLine line = true)
    (hw : noLeadWs (jsSubstringFrom line 2) = true) :
    docxSectionLine line = ⟨jsSubstringFrom line 2, true⟩ ∧
      pdfStripGlyph (pdfSectionLine line) = (true, jsSubstringFrom line 2) := by
  have hd := strip_eq_drop2 line hb hw
  constructor
  · unfold docxSectionLine
    rw [hd, hb]
  · unfold pdfSectionLine
    rw [hb]
    simp [pdfStripGlyph, drop2_glyph]

/-! ### Claim C3 -/

/-- C3 as stated is false on the code: the DOCX emitter does not leave
non-bullet lines unchanged (a line starting with a marker character but no
space is stripped by the anchored regex), and a blank body line produces an
(empty) paragraph block rather than no block: the section with body a blank
line emits three paragraphs, not two. -/
theorem C3_counterexample :
    isBulletLine "-Led" = false ∧
    (⟨"Led", false⟩ : Para) ∈ docxChildren bulletDemoResume ∧
    (⟨"-Led", false⟩ : Para) ∉ docxChildren bulletDemoResume ∧
    docxOtherSection ⟨"Skills", ""⟩
      = [⟨"SKILLS", false⟩, ⟨"", false⟩, ⟨"", false⟩] := by
  decide

/-- C3 (amended): a section-body line is classified as a bullet by both
emitters exactly when it starts with a marker and a space; a line starting
with neither a hyphen nor an asterisk is emitted unchanged as a plain
paragraph by both emitters; a blank line still produces an output block in
both emitters, an empty-text spacing paragraph. -/
theorem C3_line_classification (line : String) :
    (docxSectionLine line).bullet = isBulletLine line ∧
    (pdfSectionLine line).bullet = isBulletLine line ∧
    ((jsStartsWith line "-" || jsStartsWith line "*") = false →
      docxSectionLine line = ⟨line, false⟩ ∧ pdfSectionLine line = ⟨line, false⟩) ∧
    (line = "" →
      docxSectionLine line = ⟨"", false⟩ ∧ pdfSectionLine line = ⟨"", false⟩) := by
  refine ⟨rfl, ?_, ?_, ?_⟩
  · unfold pdfSectionLine
    cases hb : isBulletLine line <;> simp [hb]
  · exact sectionLine_unchanged line
  · intro h
    subst h
    exact ⟨rfl, rfl⟩

/-- Witness for C3 (amended) at concrete lines. -/
theorem C3_line_classification_witness :
    (docxSectionLine "hello" = ⟨"hello", false⟩ ∧
      pdfSectionLine "hello" = ⟨"hello", false⟩) ∧
    (docxSectionLine "" = ⟨"", false⟩ ∧ pdfSectionLine "" = ⟨"", false⟩) :=
  ⟨(C3_line_classification "hello").2.2.1 (by decide),
   (C3_line_classification "").2.2.2 rfl⟩

/-! ### Claim C4 -/

/-- C4 as stated is false on the code: on the line with a marker followed by
two spaces, the DOCX emitter strips the marker and all following whitespace
(yielding a text shorter than the two-character removal), while the PDF
emitter removes exactly two characters and so renders a bullet text with a
leading space. -/
theorem C4_counterexample :
    isBulletLine "-  X" = true ∧
    jsSubstringFrom "-  X" 2 = " X" ∧
    docxSectionLine "-  X" = ⟨"X", true⟩ ∧
    pdfSectionLine "-  X" = ⟨"•  X", true⟩ ∧
    (⟨"X", true⟩ : Para) ∈ docxChildren
      ⟨"A", none, "", "", none, none, none, [], [], [⟨"Skills", "-  X"⟩]⟩ := by
  decide

/-- C4 (amended): for a bullet-marked line whose remainder after the
two-character marker does not begin with whitespace, both emitters render
exactly the line with the two-character marker removed (the PDF emitter
after its bullet glyph), the rendered text has no leading whitespace, and
when the remainder is not itself marker-prefixed no bullet marker survives
in the rendered text. -/
theorem C4_bullet_strip (line : String) (hb : isBulletLine line = true)
    (hw : noLeadWs (jsSubstringFrom line 2) = true) :
    docxSectionLine line = ⟨jsSubstringFrom line 2, true⟩ ∧
    pdfStripGlyph (pdfSectionLine line) = (true, jsSubstringFrom line 2) ∧
    noLeadWs (jsSubstringFrom line 2) = true ∧
    (isBulletLine (jsSubstringFrom line 2) = false →
      isBulletLine (docxSectionLine line).text = false) := by
  obtain ⟨h1, h2⟩ := sectionLine_strip line hb hw
  refine ⟨h1, h2, hw, ?_⟩
  intro hrem
  rw [h1]
  exact hrem

/-- Witness for C4 (amended) on the specification example line. -/
theorem C4_bullet_strip_witness :
    docxSectionLine "- Led a team of 5" = ⟨"Led a team of 5", true⟩ ∧
      pdfStripGlyph (pdfSectionLine "- Led a team of 5")
        = (true, "Led a team of 5") :=
  ⟨(C4_bullet_strip "- Led a team of 5" (by decide) (by decide)).1,
   (C4_bullet_strip "- Led a team of 5" (by decide) (by decide)).2.1⟩

/-! ### Claim C2 -/

theorem content_append (f : Para → Bool × String) (l1 l2 : List Para) :
    (((l1 ++ l2).map f).filter fun x => !(x.2 == ""))
      = ((l1.map f).filter fun x => !(x.2 == ""))
        ++ ((l2.map f).filter fun x => !(x.2 == "")) := by
  rw [List.map_append, List.filter_append]

theorem content_flatMap {α : Type} (f g : Para → Bool × String)
    (h1 h2 : α → List Para) (P : α → Prop)
    (hp : ∀ a, P a →
      (((h1 a).map f).filter fun x => !(x.2 == ""))
        = (((h2 a).map g).filter fun x => !(x.2 == "")))
    (l : List α) (hl : ∀ a ∈ l, P a) :
    (((l.flatMap h1).map f).filter fun x => !(x.2 == ""))
      = (((l.flatMap h2).map g).filter fun x => !(x.2 == "")) := by
  induction l with
  | nil => rfl
  | cons a tl ih =>
    simp only [List.flatMap_cons]
    rw [content_append, content_append, hp a (hl a (by simp)),
      ih fun b hb => hl b (by simp [hb])]

theorem pdfStripGlyph_of_not_bullet (p : Para) (h : p.bullet = false) :
    pdfStripGlyph p = paraKey p := by
  unfold pdfStripGlyph paraKey
  rw [h]
  simp

theorem goodLine_content (line : String) (h : goodLine line = true) :
    paraKey (docxSectionLine line) = pdfStripGlyph (pdfSectionLine line) := by
  unfold goodLine at h
  cases hm : (jsStartsWith line "-" || jsStartsWith line "*") with
  | false =>
    obtain ⟨hdocx, hpdf⟩ := sectionLine_unchanged line hm
    rw [hdocx, hpdf]
    rfl
  | true =>
    rw [hm] at h
    simp only [Bool.not_true, Bool.false_or, Bool.and_eq_true] at h
    obtain ⟨hb, hw⟩ := h
    obtain ⟨hdocx, hpdf⟩ := sectionLine_strip line hb hw
    rw [hdocx, hpdf]
    rfl

theorem content_header (r : Resume) :
    (((docxHeader r).map paraKey).filter fun x => !(x.2 == ""))
      = (((pdfHeaderTexts r).map pdfStripGlyph).filter fun x => !(x.2 == "")) := by
  unfold docxHeader pdfHeaderTexts
  cases r.candidateTitle with
  | none => simp [paraKey, pdfStripGlyph]
  | some t => by_cases ht : t == "" <;> simp [ht, paraKey, pdfStripGlyph]

theorem content_createSection (t : String) :
    (((createSection t).map paraKey).filter fun x => !(x.2 == ""))
      = ((([⟨jsUpper t, false⟩] : List Para).map pdfStripGlyph).filter
          fun x => !(x.2 == "")) := by
  unfold createSection
  simp [paraKey, pdfStripGlyph, List.filter_cons]

theorem content_summary (r : Resume) :
    (((docxSummary r).map paraKey).filter fun x => !(x.2 == ""))
      = (((pdfSummaryTexts r).map pdfStripGlyph).filter fun x => !(x.2 == "")) := by
  unfold docxSummary pdfSummaryTexts
  cases r.summary with
  | none => rfl
  | some s =>
    by_cases hb : s.body == ""
    · simp [hb]
    · simp only [hb, Bool.false_eq_true, if_neg, not_false_eq_true]
      rw [content_append]
      conv_rhs => rw [show (⟨jsUpper s.title, false⟩ :: [⟨s.body, false⟩] : List Para)
        = [⟨jsUpper s.title, false⟩] ++ [⟨s.body, false⟩] from rfl]
      rw [content_append, content_createSection]
      simp [paraKey, pdfStripGlyph]

theorem content_job (job : WorkItem) :
    (((docxJob job).map paraKey).filter fun x => !(x.2 == ""))
      = (((pdfJobTexts job).map pdfStripGlyph).filter fun x => !(x.2 == "")) := by
  unfold docxJob pdfJobTexts pdfBullet
  have hmap : job.description.map (pdfStripGlyph ∘ fun d => (⟨"• " ++ d, true⟩ : Para))
      = job.description.map (paraKey ∘ fun d => (⟨d, true⟩ : Para)) := by
    apply List.map_congr_left
    intro d _
    simp [pdfStripGlyph, paraKey, drop2_glyph]
  simp only [List.map_append, List.filter_append, List.map_map]
  rw [hmap]
  simp [paraKey, pdfStripGlyph]

theorem content_eduItem (edu : EducationItem) :
    (((docxEduItem edu).map paraKey).filter fun x => !(x.2 == ""))
      = (((pdfEduItemTexts edu).map pdfStripGlyph).filter fun x => !(x.2 == "")) := by
  unfold docxEduItem pdfEduItemTexts pdfBullet
  cases edu.details with
  | none => rfl
  | some ds =>
    have hmap : ds.map (pdfStripGlyph ∘ fun d => (⟨"• " ++ d, true⟩ : Para))
        = ds.map (paraKey ∘ fun d => (⟨d, true⟩ : Para)) := by
      apply List.map_congr_left
      intro d _
      simp [pdfStripGlyph, paraKey, drop2_glyph]
    simp only [List.map_append, List.filter_append, List.map_map]
    rw [hmap]
    simp [paraKey, pdfStripGlyph]

theorem content_work (r : Resume) :
    (((docxWork r).map paraKey).filter fun x => !(x.2 == ""))
      = (((pdfWorkTexts r).map pdfStripGlyph).filter fun x => !(x.2 == "")) := by
  unfold docxWork pdfWorkTexts
  split
  · rfl
  · have hflat := content_flatMap paraKey pdfStripGlyph docxJob pdfJobTexts
      (fun _ => True) (fun a _ => content_job a) r.workExperience (fun a _ => trivial)
    rw [content_append]
    conv_rhs => rw [show (⟨jsUpper "Work Experience", false⟩ :: r.workExperience.flatMap pdfJobTexts : List Para)
      = [⟨jsUpper "Work Experience", false⟩] ++ r.workExperience.flatMap pdfJobTexts from rfl]
    rw [content_append, content_createSection, hflat]

theorem content_edu (r : Resume) :
    (((docxEdu r).map paraKey).filter fun x => !(x.2 == ""))
      = (((pdfEduTexts r).map pdfStripGlyph).filter fun x => !(x.2 == "")) := by
  unfold docxEdu pdfEduTexts
  split
  · rfl
  · have hflat := content_flatMap paraKey pdfStripGlyph docxEduItem pdfEduItemTexts
      (fun _ => True) (fun a _ => content_eduItem a) r.education (fun a _ => trivial)
    rw [content_append]
    conv_rhs => rw [show (⟨jsUpper "Education", false⟩ :: r.education.flatMap pdfEduItemTexts : List Para)
      = [⟨jsUpper "Education", false⟩] ++ r.education.flatMap pdfEduItemTexts from rfl]
    rw [content_append, content_createSection, hflat]

theorem content_otherSection (sec : ResumeSection)
    (h : ∀ line ∈ jsSplitNl sec.body, goodLine line = true) :
    (((docxOtherSection sec).map paraKey).filter fun x => !(x.2 == ""))
      = (((pdfOtherSectionTexts sec).map pdfStripGlyph).filter fun x => !(x.2 == "")) := by
  unfold docxOtherSection pdfOtherSectionTexts
  have hmap : (jsSplitNl sec.body).map (pdfStripGlyph ∘ pdfSectionLine)
      = (jsSplitNl sec.body).map (paraKey ∘ docxSectionLine) := by
    apply List.map_congr_left
    intro line hline
    exact (goodLine_content line (h line hline)).symm
  rw [content_append]
  conv_rhs => rw [show (⟨jsUpper sec.title, false⟩ :: (jsSplitNl sec.body).map pdfSectionLine : List Para)
    = [⟨jsUpper sec.title, false⟩] ++ (jsSplitNl sec.body).map pdfSectionLine from rfl]
  rw [content_append, content_createSection]
  simp only [List.map_map]
  rw [hmap]

/-- C2 as stated is false on the code: on a resume whose extra section holds
the line starting with a hyphen but no space, the DOCX emitter strips the
marker character while the PDF emitter draws the line unchanged, so the two
emitted contents disagree. -/
theorem C2_counterexample :
    docxContent bulletDemoResume ≠ pdfContent bulletDemoResume := by
  decide

/-- C2 (amended): for every resume whose extra-section body lines are
well-formed (each line either does not start with a marker character at all,
or is a proper bullet whose remainder does not begin with whitespace), the
DOCX emitter and the PDF emitter produce the same content: the same
non-empty block texts, in the same order, with the same bullet
classification, differing only in visual styling. -/
theorem C2_content_agreement (r : Resume)
    (h : ∀ sec ∈ r.otherSections, ∀ line ∈ jsSplitNl sec.body, goodLine line = true) :
    docxContent r = pdfContent r := by
  unfold docxContent pdfContent docxChildren pdfDrawTexts
  rw [content_append, content_append, content_append, content_append,
    content_append, content_append, content_append, content_append,
    content_header, content_summary, content_work, content_edu,
    content_flatMap paraKey pdfStripGlyph docxOtherSection pdfOtherSectionTexts
      (fun sec => ∀ line ∈ jsSplitNl sec.body, goodLine line = true)
      (fun sec hsec => content_otherSection sec hsec) r.otherSections h]

/-- Witness for C2 (amended) on a resume exercising every emitter branch. -/
theorem C2_content_agreement_witness :
    docxContent wellFormedResume = pdfContent wellFormedResume :=
  C2_content_agreement wellFormedResume (by decide)

/-! ### Claim C6 -/

/-- C6 as stated is false on the code: a resume with an empty
work-experience sequence whose extra section is titled Work Experience still
emits a WORK EXPERIENCE section title in both emitters. -/
theorem C6_counterexample :
    workTitledResume.workExperience = [] ∧
    (⟨"WORK EXPERIENCE", false⟩ : Para) ∈ docxChildren workTitledResume ∧
    (⟨"WORK EXPERIENCE", false⟩ : Para) ∈ pdfDrawTexts workTitledResume := by
  decide

/-- C6 (amended): with an empty work-experience sequence neither emitter
emits any work-derived block (no Work Experience section title, no
work-entry headings, no work bullets): the work segment of both emitted
block sequences is empty, and the emitted output decomposes as header,
summary, work, education and other-section segments in order; symmetrically
for an empty education sequence.  A Work Experience title can then only
arise from other data (a summary or extra section so titled). -/
theorem C6_empty_section_suppression (r : Resume) :
    (r.workExperience = [] → docxWork r = [] ∧ pdfWorkTexts r = []) ∧
    (r.education = [] → docxEdu r = [] ∧ pdfEduTexts r = []) ∧
    docxChildren r = docxHeader r ++ docxSummary r ++ docxWork r ++ docxEdu r
      ++ r.otherSections.flatMap docxOtherSection ∧
    (∀ wrap : Wrap, eventsKey (pdfRun wrap r)
      = pdfHeaderTexts r ++ pdfSummaryTexts r ++ pdfWorkTexts r ++ pdfEduTexts r
        ++ r.otherSections.flatMap pdfOtherSectionTexts) := by
  refine ⟨?_, ?_, rfl, ?_⟩
  · intro h
    constructor <;> simp [docxWork, pdfWorkTexts, h]
  · intro h
    constructor <;> simp [docxEdu, pdfEduTexts, h]
  · intro wrap
    rw [pdfRun_texts]
    rfl

/-- Witness for C6 (amended) on a resume with empty work and education. -/
theorem C6_empty_section_suppression_witness :
    (docxWork sampleResume = [] ∧ pdfWorkTexts sampleResume = []) ∧
      (docxEdu sampleResume = [] ∧ pdfEduTexts sampleResume = []) :=
  ⟨(C6_empty_section_suppression sampleResume).1 rfl,
   (C6_empty_section_suppression sampleResume).2.1 rfl⟩

/-! ### Claim C7 -/

theorem validateChatOutput_obj (fields : List (String × Json)) :
    validateChatOutput (Json.obj fields)
      = match zMerge2 (zString "response" (jLookup fields "response"))
            (zOptionalResume "resumeData" (jLookup fields "resumeData")) with
        | .ok (resp, rd) => .ok ⟨resp, rd⟩
        | .error e => .error e :=
  rfl

theorem zOptionalResume_some (path : String) (j : Json) :
    zOptionalResume path (some j)
      = match validateTailoredAt (path ++ ".") j with
        | .ok r => .ok (some r)
        | .error e => .error e :=
  rfl

theorem zMerge2_error_left {A B : Type} (a : Except (List String) A)
    (b : Except (List String) B) (e : List String) (ha : a = .error e) :
    ∃ e2, zMerge2 a b = .error e2 ∧ ∀ x ∈ e, x ∈ e2 := by
  subst ha
  cases b with
  | ok v => exact ⟨e, rfl, fun x hx => hx⟩
  | error e2 => exact ⟨e ++ e2, rfl, fun x hx => List.mem_append_left _ hx⟩

theorem zMerge2_error_right {A B : Type} (a : Except (List String) A)
    (b : Except (List String) B) (e : List String) (hb : b = .error e) :
    ∃ e2, zMerge2 a b = .error e2 ∧ ∀ x ∈ e, x ∈ e2 := by
  subst hb
  cases a with
  | ok v => exact ⟨e, rfl, fun x hx => hx⟩
  | error e1 => exact ⟨e1 ++ e, rfl, fun x hx => List.mem_append_right _ hx⟩

/-- C7 as stated is false on the code: the zod output schema places no
non-emptiness requirement on its string fields, so a raw object whose
required fields are all present but all empty strings validates
successfully. -/
theorem C7_counterexample :
    validateTailored rawResumeAllEmpty = .ok ⟨"", "", "", none, "", [], ""⟩ :=
  rfl

/-- C7 (amended): validation fails with a single error whenever a required
field is absent or has the wrong shape, and the error enumerates all
violated fields; in particular an object missing email fails naming email,
and an object missing both email and phone fails naming both.  An object
with all required fields present (empty strings included, which are
accepted) and no optional fields succeeds and yields a value whose optional
field is absent. -/
theorem C7_schema_validation :
    (∀ fields : List (String × Json), jLookup fields "email" = none →
      (validateTailored (Json.obj fields)).isOk = false ∧
        "email" ∈ exceptErrors (validateTailored (Json.obj fields))) ∧
    validateTailored rawResumeComplete
      = .ok ⟨"John Doe", "j@d.com", "555", none, "S", [⟨"Skills", "- Lean"⟩], "full"⟩ ∧
    validateTailored rawResumeMissingTwo = .error ["email", "phone"] := by
  refine ⟨?_, rfl, rfl⟩
  intro fields hemail
  have h1 : zString ("" ++ "email") (jLookup fields "email")
      = Except.error ["" ++ "email"] := by
    rw [hemail]
    rfl
  obtain ⟨e1, he1, hm1⟩ := zMerge2_error_left
    (zString ("" ++ "email") (jLookup fields "email"))
    (zMerge2 (zString ("" ++ "phone") (jLookup fields "phone"))
      (zMerge2 (zOptionalString ("" ++ "linkedin") (jLookup fields "linkedin"))
        (zMerge2 (zString ("" ++ "summary") (jLookup fields "summary"))
          (zMerge2 (zSectionArray ("" ++ "sections") (jLookup fields "sections"))
            (zString ("" ++ "fullResumeText") (jLookup fields "fullResumeText"))))))
    _ h1
  obtain ⟨e2, he2, hm2⟩ := zMerge2_error_right
    (zString ("" ++ "name") (jLookup fields "name")) _ _ he1
  have hval : validateTailored (Json.obj fields) = .error e2 := by
    show validateTailoredAt "" (Json.obj fields) = .error e2
    unfold validateTailoredAt
    simp only [he2]
  rw [hval]
  exact ⟨rfl, hm2 _ (hm1 _ (by decide))⟩

/-- Witness for C7 (amended): a concrete object lacking email fails, naming
email among the violated fields. -/
theorem C7_schema_validation_witness :
    (validateTailored (Json.obj [("name", Json.str "X")])).isOk = false ∧
      "email" ∈ exceptErrors (validateTailored (Json.obj [("name", Json.str "X")])) :=
  C7_schema_validation.1 [("name", Json.str "X")] rfl

/-! ### Claim C9 -/

theorem chatOutput_resume_core (fields : List (String × Json))
    (out : CareerChatOutput) (rd : TailoredResume)
    (hok : validateChatOutput (Json.obj fields) = .ok out)
    (hsome : out.resumeData = some rd) :
    ∃ jr, jLookup fields "resumeData" = some jr ∧
      validateTailoredAt "resumeData." jr = .ok rd := by
  rw [validateChatOutput_obj] at hok
  cases hA : zString "response" (jLookup fields "response") with
  | error e =>
    rw [hA] at hok
    cases hB : zOptionalResume "resumeData" (jLookup fields "resumeData") <;>
      rw [hB] at hok <;> simp [zMerge2] at hok
  | ok resp =>
    cases hB : zOptionalResume "resumeData" (jLookup fields "resumeData") with
    | error e =>
      rw [hA, hB] at hok
      simp [zMerge2] at hok
    | ok rdOpt =>
      rw [hA, hB] at hok
      simp only [zMerge2, Except.ok.injEq] at hok
      rw [← hok] at hsome
      simp only at hsome
      subst hsome
      cases hL : jLookup fields "resumeData" with
      | none =>
        rw [hL] at hB
        simp [zOptionalResume] at hB
      | some jr =>
        rw [hL, zOptionalResume_some] at hB
        cases hV : validateTailoredAt ("resumeData" ++ ".") jr with
        | error e =>
          rw [hV] at hB
          simp at hB
        | ok r2 =>
          rw [hV] at hB
          simp only [Except.ok.injEq, Option.some.injEq] at hB
          exact ⟨jr, rfl, by rw [show ("resumeData." : String)
            = "resumeData" ++ "." from rfl, hV, hB]⟩

/-- C9: whenever a chat turn output passes the chat output schema and its
resumeData field is present, that field is present in the raw output and was
itself validated by the full resume schema (it passes the resume schema
validator independently); and the message-history update of a successful
turn uses only the response string, so a turn without resumeData contributes
only its response. -/
theorem C9_chat_output_contract :
    (∀ (fields : List (String × Json)) (out : CareerChatOutput)
        (rd : TailoredResume) (jr : Json),
        validateChatOutput (Json.obj fields) = .ok out → out.resumeData = some rd →
        jLookup fields "resumeData" = some jr →
        validateTailoredAt "resumeData." jr = .ok rd) ∧
    (∀ (fields : List (String × Json)) (out : CareerChatOutput)
        (rd : TailoredResume),
        validateChatOutput (Json.obj fields) = .ok out → out.resumeData = some rd →
        (jLookup fields "resumeData").isSome = true) ∧
    (∀ (messages : List ChatMessage) (input : String) (o1 o2 : CareerChatOutput),
        o1.response = o2.response →
        handleSendMessage messages input false (.ok o1)
          = handleSendMessage messages input false (.ok o2)) := by
  refine ⟨?_, ?_, ?_⟩
  · intro fields out rd jr hok hsome hjr
    obtain ⟨jr2, hL, hV⟩ := chatOutput_resume_core fields out rd hok hsome
    rw [hjr] at hL
    cases hL
    exact hV
  · intro fields out rd hok hsome
    obtain ⟨jr2, hL, hV⟩ := chatOutput_resume_core fields out rd hok hsome
    rw [hL]
    rfl
  · intro messages input o1 o2 h
    unfold handleSendMessage
    split
    · rfl
    · show messages ++ [⟨ChatRole.user, input⟩] ++ [⟨ChatRole.model, o1.response⟩]
        = messages ++ [⟨ChatRole.user, input⟩] ++ [⟨ChatRole.model, o2.response⟩]
      rw [h]

/-- Witness for C9 at a concrete chat output carrying a resume, and two
concrete outputs sharing a response. -/
theorem C9_chat_output_contract_witness :
    validateTailoredAt "resumeData." rawResumeComplete
      = .ok ⟨"John Doe", "j@d.com", "555", none, "S", [⟨"Skills", "- Lean"⟩], "full"⟩ ∧
    (jLookup [("response", Json.str "Done."), ("resumeData", rawResumeComplete)]
      "resumeData").isSome = true ∧
    handleSendMessage [] "hi" false (.ok ⟨"ok", none⟩)
      = handleSendMessage [] "hi" false
          (.ok ⟨"ok", some ⟨"X", "", "", none, "", [], ""⟩⟩) :=
  ⟨C9_chat_output_contract.1
      [("response", Json.str "Done."), ("resumeData", rawResumeComplete)]
      ⟨"Done.", some ⟨"John Doe", "j@d.com", "555", none, "S",
        [⟨"Skills", "- Lean"⟩], "full"⟩⟩
      ⟨"John Doe", "j@d.com", "555", none, "S", [⟨"Skills", "- Lean"⟩], "full"⟩
      rawResumeComplete rfl rfl rfl,
   C9_chat_output_contract.2.1
      [("response", Json.str "Done."), ("resumeData", rawResumeComplete)]
      ⟨"Done.", some ⟨"John Doe", "j@d.com", "555", none, "S",
        [⟨"Skills", "- Lean"⟩], "full"⟩⟩
      ⟨"John Doe", "j@d.com", "555", none, "S", [⟨"Skills", "- Lean"⟩], "full"⟩
      rfl rfl,
   C9_chat_output_contract.2.2 [] "hi" _ _ rfl⟩

/-! ### Claim C10 -/

/-- C10: when the careerChat call of a turn throws, the resulting message
history is exactly the pre-turn history with the one fixed model apology
message appended; the user message that triggered the turn is not retained
(every user-role message of the result was already in the pre-turn
history). -/
theorem C10_failed_turn_history (messages : List ChatMessage) (input : String)
    (h : ¬ jsTrim input = "") :
    handleSendMessage messages input false (.error ()) = messages ++ [apologyMessage] ∧
      ∀ m ∈ handleSendMessage messages input false (.error ()),
        m.role = ChatRole.user → m ∈ messages := by
  have hcond : (jsTrim input == "" || false) = false := by
    simp [h]
  constructor
  · unfold handleSendMessage
    rw [hcond]
    rfl
  · intro m hm hrole
    unfold handleSendMessage at hm
    rw [hcond] at hm
    simp only [Bool.false_eq_true, if_false] at hm
    rcases List.mem_append.mp hm with h1 | h1
    · exact h1
    · rw [List.mem_singleton] at h1
      subst h1
      simp [apologyMessage] at hrole

/-- Witness for C10 at a concrete non-empty input and empty history. -/
theorem C10_failed_turn_history_witness :
    handleSendMessage [] "hi" false (.error ()) = [] ++ [apologyMessage] :=
  (C10_failed_turn_history [] "hi" (by decide)).1
